import Mathlib

/-!
Verification of the LearnLens mastery & spaced-repetition engine.

The repository ships a React frontend (`frontend/src/pages/Quiz.jsx`,
`frontend/src/pages/Upload.jsx` with the `Dashboard` component,
`frontend/src/components/Navbar.jsx`, `frontend/src/utils/api.js`).
The backend engine (`backend/services/quiz_engine.py`, named in the README
project layout as "SM-2 scheduler, XP system") is not part of the source
tree available here, so the scheduler, mastery model, progression ledger and
dashboard/stats payloads are modelled from the specification; the frontend
state machines and rendering facts are translated from the JSX source.
-/

namespace LearnLens

/-! ## Spaced-repetition scheduler (SM-2) -/

/-- Per-card scheduling state: repetition count, current interval in days,
ease factor. Ease factors and the rounding arithmetic are exact rationals. -/
structure ScheduleState where
  repetition : Nat
  interval : Int
  ease : ℚ
deriving DecidableEq, Repr

/-- Modelled from the spec: ease-factor update of `backend/services/quiz_engine.py`
(not in the source tree). `ease = max(1.3, ease + (0.1 − (5−quality)×(0.08 + (5−quality)×0.02)))`. -/
def updateEase (ease : ℚ) (quality : Nat) : ℚ :=
  max (13/10) (ease + (1/10 - ((5:ℚ) - quality) * (8/100 + ((5:ℚ) - quality) * (2/100))))

/-- Modelled from the spec: the SM-2 `grade` step of
`backend/services/quiz_engine.py` (not in the source tree). If quality < 3 the
repetition count resets to 0 and the interval to 1 day; otherwise repetition
increments and the interval is 1 day (repetition 1), 6 days (repetition 2), or
`round(previous_interval × ease_factor)` with the freshly updated ease factor
(the spec's determinism scenario states the third interval is
`round(6 × new_ease)`). The ease factor is updated for all qualities. -/
def grade (s : ScheduleState) (quality : Nat) : ScheduleState :=
  let ease' := updateEase s.ease quality
  if quality < 3 then
    { repetition := 0, interval := 1, ease := ease' }
  else
    let rep' := s.repetition + 1
    let interval' : Int :=
      if rep' = 1 then 1
      else if rep' = 2 then 6
      else round ((s.interval : ℚ) * ease')
    { repetition := rep', interval := interval', ease := ease' }

/-- The fresh card of the SM-2 determinism scenario: ease 2.5, repetition 0, interval 0. -/
def freshCard : ScheduleState := { repetition := 0, interval := 0, ease := 5/2 }

/-! ## Mastery model -/

/-- Modelled from the spec: the per-event mastery target of the mastery model
in `backend/services/quiz_engine.py` (not in the source tree). 100 for a
correct answer with zero hints; a correct answer loses 10 per hint used,
floored at 50; 0 for an incorrect answer. -/
def masteryTarget (isCorrect : Bool) (hints : Nat) : ℚ :=
  if isCorrect then max 50 (100 - 10 * (hints : ℚ)) else 0

/-- Clamp a rational to the mastery range [0, 100]. -/
def clampMastery (x : ℚ) : ℚ := min 100 (max 0 x)

/-- Modelled from the spec: one mastery update of
`backend/services/quiz_engine.py` (not in the source tree). The first event of
a topic initializes mastery directly to the target; later events blend with
learning rate 0.3 and clamp to [0, 100]. -/
def masteryUpdate (old : Option ℚ) (isCorrect : Bool) (hints : Nat) : ℚ :=
  match old with
  | none => masteryTarget isCorrect hints
  | some m => clampMastery (m + (3/10) * (masteryTarget isCorrect hints - m))

/-- An answer event as the mastery model consumes it: correctness and hints used. -/
abbrev MasteryEvent := Bool × Nat

/-- Mastery of one (user, topic) pair after replaying a sequence of answer
events for that topic; `none` when no event has been recorded. -/
def masteryAfter (events : List MasteryEvent) : Option ℚ :=
  events.foldl (fun acc e => some (masteryUpdate acc e.1 e.2)) none

/-! ## Dashboard rendering of mastery (frontend/src/pages/Upload.jsx, Dashboard) -/

/-- From `Upload.jsx` (Dashboard): the mastery bar is animated to
`width: mastery%`, so the drawn width in percent equals the mastery value. -/
def masteryBarWidth (mastery : ℚ) : ℚ := mastery

/-- From `Upload.jsx` (Dashboard): the radar chart's radius axis is
`<PolarRadiusAxis angle={90} domain={[0, 100]} />`. -/
def radarDomain : ℚ × ℚ := (0, 100)

/-- From `Upload.jsx` (Dashboard): each radar datum carries the topic's
mastery and a `fullMark` of 100. -/
def radarDatum (mastery : ℚ) : ℚ × ℚ := (mastery, 100)

end LearnLens

namespace LearnLens

/-! ## Progression ledger: XP -/

/-- Modelled from the spec: the XP rule of `backend/services/quiz_engine.py`
(not in the source tree). `xp_delta = is_correct ? max(0, base_xp − hints_used×2) : 0`
with `base_xp = 10`. -/
def award_xp (isCorrect : Bool) (hints : Nat) : ℤ :=
  if isCorrect then max 0 (10 - 2 * (hints : ℤ)) else 0

/-- Total XP after folding the XP deltas of an event sequence over a starting total. -/
def totalXP (start : ℤ) (events : List MasteryEvent) : ℤ :=
  events.foldl (fun acc e => acc + award_xp e.1 e.2) start

/-- From `Quiz.jsx` (Quiz): the per-question notice shown once a hint is taken
reads `XP reduced by {hintLevel * 2}`. -/
def xpNoticeReduction (hintLevel : Nat) : Nat := hintLevel * 2

/-- From `Quiz.jsx` (handleSubmit): the XP popup is triggered by
`if (result.xp_earned > 0)`. -/
def showXpPopup (xp_earned : ℤ) : Bool := xp_earned > 0

/-! ## Progression ledger: level curve -/

/-- Modelled from the spec: the level function of
`backend/services/quiz_engine.py` (not in the source tree).
`level(total_xp) = floor(sqrt(total_xp / 100)) + 1`, on natural-number XP. -/
def level (total_xp : Nat) : Nat := Nat.sqrt (total_xp / 100) + 1

/-- Modelled from the spec: the inverse XP threshold of the level curve,
`xp_for_level(L) = 100 × (L − 1)²` (the least total XP attaining level `L`). -/
def xp_for_level (L : Nat) : Nat := 100 * (L - 1) ^ 2

/-- Modelled from the spec: the level-progress fraction
`(total_xp − xp_for_level(level)) / (xp_for_level(level+1) − xp_for_level(level))`. -/
def level_progress (total_xp : Nat) : ℚ :=
  ((total_xp : ℚ) - (xp_for_level (level total_xp) : ℚ)) /
    ((xp_for_level (level total_xp + 1) : ℚ) - (xp_for_level (level total_xp) : ℚ))

/-- From `Upload.jsx` (Dashboard): the level bar is animated to
`width: levelProgress × 100 %`. -/
def levelBarWidth (levelProgress : ℚ) : ℚ := levelProgress * 100

end LearnLens

namespace LearnLens

/-! ## Due-for-review queue -/

/-- A queue item: question id, due timestamp, owning topic's mastery, and the
question text the dashboard prints. -/
structure QItem where
  qid : Nat
  due : Int
  mastery : ℚ
  question_text : String
deriving DecidableEq, Repr

/-- Modelled from the spec: the queue priority of
`backend/services/quiz_engine.py` (not in the source tree) — due timestamp
ascending, ties broken by lowest owning-topic mastery. -/
def dueOrder (a b : QItem) : Prop :=
  a.due < b.due ∨ (a.due = b.due ∧ a.mastery ≤ b.mastery)

instance : DecidableRel dueOrder := fun a b => by
  unfold dueOrder
  infer_instance

instance : IsTotal QItem dueOrder := by
  constructor
  intro a b
  rcases lt_trichotomy a.due b.due with h | h | h
  · exact Or.inl (Or.inl h)
  · rcases le_total a.mastery b.mastery with hm | hm
    · exact Or.inl (Or.inr ⟨h, hm⟩)
    · exact Or.inr (Or.inr ⟨h.symm, hm⟩)
  · exact Or.inr (Or.inl h)

instance : IsTrans QItem dueOrder := by
  constructor
  intro a b c hab hbc
  rcases hab with hab | ⟨hab, ham⟩
  · rcases hbc with hbc | ⟨hbc, _⟩
    · exact Or.inl (hab.trans hbc)
    · exact Or.inl (hbc ▸ hab)
  · rcases hbc with hbc | ⟨hbc, hbm⟩
    · exact Or.inl (hab ▸ hbc)
    · exact Or.inr ⟨hab.trans hbc, ham.trans hbm⟩

/-- Modelled from the spec: `due_queue(user, now)` of
`backend/services/quiz_engine.py` (not in the source tree) — the questions
whose due timestamp is at most `now`, sorted by `dueOrder`. -/
def due_queue (qs : List QItem) (now : Int) : List QItem :=
  List.insertionSort dueOrder (qs.filter (fun q => q.due ≤ now))

/-- From `Upload.jsx` (Dashboard): the review panel renders
`review_queue.slice(0, 3)` in the received order. -/
def renderedReviewQueue (queue : List QItem) : List QItem := queue.take 3

/-! ## Dashboard and stats payload fields -/

/-- Modelled from the spec: the `stats` object of the `dashboard(user)` payload
produced by `backend/routers/progress.py` (not in the source tree). -/
def specStatsFields : List String :=
  ["xp", "level", "level_progress", "streak", "longest_streak", "accuracy",
   "total_questions", "total_correct"]

/-- Modelled from the spec: the top-level keys of the `dashboard(user)` payload
produced by `backend/routers/progress.py` (not in the source tree). -/
def specDashboardFields : List String :=
  ["topic_mastery", "recent_quizzes", "review_queue", "stats"]

/-- From `Upload.jsx` (Dashboard): the `stats` fields the component reads —
`stats.level_progress`, `stats.xp`, `stats.level`, `stats.streak`,
`stats.accuracy`, `stats.xp_in_level`, `stats.xp_for_next`,
`stats.total_questions`, `stats.total_correct`, `stats.longest_streak`. -/
def dashboardStatsFieldsRead : List String :=
  ["level_progress", "xp", "level", "streak", "accuracy", "xp_in_level",
   "xp_for_next", "total_questions", "total_correct", "longest_streak"]

/-- From `Upload.jsx` (Dashboard): the top-level payload keys the component
reads — the destructuring `{ stats, topic_mastery, recent_quizzes, review_queue }`
plus `data.documents_count` in the footer. -/
def dashboardTopFieldsRead : List String :=
  ["stats", "topic_mastery", "recent_quizzes", "review_queue", "documents_count"]

/-! ## Navbar and the stats(user) payload -/

/-- Modelled from the spec: the lightweight `stats(user)` payload of
`backend/routers/progress.py` (not in the source tree): `{xp, streak, level}`. -/
def specLightStatsFields : List String := ["xp", "streak", "level"]

/-- From `Navbar.jsx`: the fields the navbar displays — `stats.xp`,
`stats.streak`, `stats.level`. -/
def navbarFieldsRead : List String := ["xp", "streak", "level"]

/-- The navbar's stats state. -/
structure NavStats where
  xp : Int
  streak : Int
  level : Int
deriving DecidableEq, Repr

/-- From `Navbar.jsx`: `useState({ xp: 0, streak: 0, level: 1 })`. -/
def initialNavStats : NavStats := { xp := 0, streak := 0, level := 1 }

/-- From `Navbar.jsx`: `progressAPI.stats().then(setStats).catch(() => { })` —
a successful fetch replaces the stats, a failed fetch leaves them unchanged. -/
def navUpdate (st : NavStats) (fetched : Option NavStats) : NavStats :=
  match fetched with
  | some s => s
  | none => st

end LearnLens

namespace LearnLens

/-! ## Quiz page state machine (frontend/src/pages/Quiz.jsx) -/

/-- Question type, from the `question_type` strings `'mcq'` / `'short_answer'`. -/
inductive QType where
  | mcq
  | short_answer
deriving DecidableEq, Repr

/-- A quiz question as the Quiz page consumes it. -/
structure Question where
  id : Nat
  question_type : QType
  question_text : String
  options : List String
deriving DecidableEq, Repr

/-- A grading result as returned by the answer endpoint and stored in
`feedback` / `results`. -/
structure AnswerResult where
  is_correct : Bool
  xp_earned : Int
  correct_answer : String
  feedback : String
deriving DecidableEq, Repr

/-- The Quiz component's state: the loaded quiz's questions and the `useState`
hooks `currentIndex`, `selectedOption`, `shortAnswer`, `feedback`, `hints`,
`hintLevel`, `submitting`, `results`, `completed`. -/
structure QuizState where
  questions : List Question
  currentIndex : Nat
  selectedOption : Option String
  shortAnswer : String
  feedback : Option AnswerResult
  hints : List (Nat × String)
  hintLevel : Nat
  submitting : Bool
  results : List AnswerResult
  completed : Bool
deriving DecidableEq, Repr

/-- The Quiz component's initial state for a loaded quiz. -/
def initQuizState (qs : List Question) : QuizState :=
  { questions := qs, currentIndex := 0, selectedOption := none, shortAnswer := "",
    feedback := none, hints := [], hintLevel := 0, submitting := false,
    results := [], completed := false }

/-- From `Quiz.jsx`: `const currentQuestion = quiz?.questions?.[currentIndex]`. -/
def currentQuestion (s : QuizState) : Option Question :=
  s.questions[s.currentIndex]?

/-- From `Quiz.jsx` (handleSubmit): `const answer = question_type === 'mcq' ?
selectedOption : shortAnswer`, with JavaScript falsiness — `null` and the
empty string are both "no answer". -/
def answerValue (s : QuizState) (q : Question) : Option String :=
  match q.question_type with
  | .mcq => s.selectedOption
  | .short_answer => if s.shortAnswer = "" then none else some s.shortAnswer

/-- From `Quiz.jsx` (handleSubmit), up to issuing the answer request: the
guards `if (!currentQuestion || submitting) return` and `if (!answer) return`
leave the state untouched and issue no request; otherwise `setSubmitting(true)`
and the request `(question_id, answer)` goes out. -/
def handleSubmitStart (s : QuizState) : QuizState × Option (Nat × String) :=
  match currentQuestion s with
  | none => (s, none)
  | some q =>
    if s.submitting then (s, none)
    else
      match answerValue s q with
      | none => (s, none)
      | some a => ({ s with submitting := true }, some (q.id, a))

/-- From `Quiz.jsx`: the submit button's
`disabled={submitting || (!selectedOption && !shortAnswer)}`. -/
def submitButtonDisabled (s : QuizState) : Bool :=
  s.submitting || (s.selectedOption.isNone && s.shortAnswer == "")

/-- From `Quiz.jsx` (handleSubmit), on a successful answer response: store the
feedback, append the result to `results`, clear `submitting`. -/
def applyAnswerResult (s : QuizState) (r : AnswerResult) : QuizState :=
  { s with feedback := some r, results := s.results ++ [r], submitting := false }

/-- From `Quiz.jsx` (requestHint): `nextLevel = hintLevel + 1`; when
`nextLevel > 3` return with no effect, otherwise record the hint text for
`nextLevel` and advance `hintLevel`. -/
def requestHint (s : QuizState) (hintText : String) : QuizState :=
  let nextLevel := s.hintLevel + 1
  if nextLevel > 3 then s
  else { s with hints := s.hints ++ [(nextLevel, hintText)], hintLevel := nextLevel }

/-- From `Quiz.jsx` (requestHint): the hint level sent with the
`quizzesAPI.hint(currentQuestion.id, nextLevel)` request, or `none` when the
guard `if (nextLevel > 3) return` suppresses the request. -/
def hintRequestIssued (s : QuizState) : Option Nat :=
  if s.hintLevel + 1 > 3 then none else some (s.hintLevel + 1)

/-- From `Quiz.jsx`: the "Need a hint?" button is rendered only inside the
`!feedback` hints section and only when `hintLevel < 3`. -/
def hintButtonRendered (s : QuizState) : Bool :=
  s.feedback.isNone && s.hintLevel < 3

/-- From `Quiz.jsx` (handleNext): on the last question set `completed`;
otherwise advance `currentIndex` and clear the per-question state
(`selectedOption`, `shortAnswer`, `feedback`, `hints`, `hintLevel`). -/
def handleNext (s : QuizState) : QuizState :=
  if s.currentIndex + 1 ≥ s.questions.length then
    { s with completed := true }
  else
    { s with currentIndex := s.currentIndex + 1, selectedOption := none,
             shortAnswer := "", feedback := none, hints := [], hintLevel := 0 }

/-- A user interaction on the Quiz page: selecting an MCQ option (guarded by
`!feedback` in the option `onClick`), typing a short answer (the input is
disabled once feedback is shown), requesting a hint, starting a submission,
receiving a grading response, and moving on to the next question. -/
inductive QuizAction where
  | selectOption (o : String)
  | typeShortAnswer (t : String)
  | requestHint (text : String)
  | submit
  | answerResponse (r : AnswerResult)
  | next
deriving DecidableEq, Repr

/-- One step of the Quiz page's state under a user interaction. -/
def quizStep (s : QuizState) (a : QuizAction) : QuizState :=
  match a with
  | .selectOption o => if s.feedback.isNone then { s with selectedOption := some o } else s
  | .typeShortAnswer t => if s.feedback.isNone then { s with shortAnswer := t } else s
  | .requestHint text => requestHint s text
  | .submit => (handleSubmitStart s).1
  | .answerResponse r => applyAnswerResult s r
  | .next => handleNext s

/-- The Quiz page's state after a sequence of interactions on a loaded quiz. -/
def quizRun (qs : List Question) (actions : List QuizAction) : QuizState :=
  actions.foldl quizStep (initQuizState qs)

end LearnLens

namespace LearnLens

/-! ## Bounds for the mastery model -/

lemma masteryTarget_nonneg (c : Bool) (h : Nat) : 0 ≤ masteryTarget c h := by
  unfold masteryTarget
  split
  · exact le_trans (by norm_num) (le_max_left _ _)
  · exact le_refl 0

lemma masteryTarget_le (c : Bool) (h : Nat) : masteryTarget c h ≤ 100 := by
  unfold masteryTarget
  split
  · refine max_le (by norm_num) ?_
    have : (0:ℚ) ≤ 10 * (h : ℚ) := by positivity
    linarith
  · norm_num

lemma clampMastery_nonneg (x : ℚ) : 0 ≤ clampMastery x :=
  le_min (by norm_num) (le_max_left 0 x)

lemma clampMastery_le (x : ℚ) : clampMastery x ≤ 100 :=
  min_le_left 100 _

lemma masteryUpdate_nonneg (old : Option ℚ) (c : Bool) (h : Nat) :
    0 ≤ masteryUpdate old c h := by
  cases old with
  | none => exact masteryTarget_nonneg c h
  | some m => exact clampMastery_nonneg _

lemma masteryUpdate_le (old : Option ℚ) (c : Bool) (h : Nat) :
    masteryUpdate old c h ≤ 100 := by
  cases old with
  | none => exact masteryTarget_le c h
  | some m => exact clampMastery_le _

lemma masteryAfter_foldl_bounds :
    ∀ (es : List MasteryEvent) (acc : Option ℚ),
      (∀ x, acc = some x → 0 ≤ x ∧ x ≤ 100) →
      ∀ m, es.foldl (fun a e => some (masteryUpdate a e.1 e.2)) acc = some m →
        0 ≤ m ∧ m ≤ 100 := by
  intro es
  induction es with
  | nil =>
      intro acc hacc m hm
      exact hacc m hm
  | cons e es ih =>
      intro acc _ m hm
      refine ih (some (masteryUpdate acc e.1 e.2)) ?_ m hm
      intro x hx
      obtain rfl : masteryUpdate acc e.1 e.2 = x := Option.some.inj hx
      exact ⟨masteryUpdate_nonneg _ _ _, masteryUpdate_le _ _ _⟩

end LearnLens

namespace LearnLens

/-! ## XP helper lemmas -/

lemma award_xp_nonneg (c : Bool) (h : Nat) : 0 ≤ award_xp c h := by
  unfold award_xp
  split
  · exact le_max_left 0 _
  · exact le_refl 0

lemma le_totalXP : ∀ (es : List MasteryEvent) (t : ℤ), t ≤ totalXP t es := by
  intro es
  induction es with
  | nil => intro t; exact le_refl t
  | cons e es ih =>
      intro t
      have h1 : t ≤ t + award_xp e.1 e.2 := le_add_of_nonneg_right (award_xp_nonneg e.1 e.2)
      exact le_trans h1 (ih (t + award_xp e.1 e.2))

lemma totalXP_append (t : ℤ) (es₁ es₂ : List MasteryEvent) :
    totalXP t (es₁ ++ es₂) = totalXP (totalXP t es₁) es₂ := by
  unfold totalXP
  exact List.foldl_append _ _ es₁ es₂

/-! ## Level curve helper lemmas -/

lemma xp_for_level_level_le (xp : Nat) : xp_for_level (level xp) ≤ xp := by
  unfold xp_for_level level
  simp only [Nat.add_sub_cancel]
  calc 100 * Nat.sqrt (xp / 100) ^ 2 ≤ 100 * (xp / 100) := by
        have h := Nat.sqrt_le' (xp / 100)
        exact Nat.mul_le_mul_left 100 h
    _ ≤ xp := by
        rw [Nat.mul_comm]
        exact Nat.div_mul_le_self xp 100

lemma lt_xp_for_level_succ (xp : Nat) : xp < xp_for_level (level xp + 1) := by
  unfold xp_for_level level
  set s := Nat.sqrt (xp / 100) with hs
  have heq : s + 1 + 1 - 1 = s + 1 := by omega
  rw [heq, pow_two]
  have h := Nat.lt_succ_sqrt (xp / 100)
  have h2 : xp < (s + 1) * (s + 1) * 100 :=
    (Nat.div_lt_iff_lt_mul (by norm_num)).1 h
  linarith

lemma level_progress_bounds (xp : Nat) :
    0 ≤ level_progress xp ∧ level_progress xp < 1 := by
  have hlow : (xp_for_level (level xp) : ℚ) ≤ (xp : ℚ) := by
    exact_mod_cast xp_for_level_level_le xp
  have hhigh : (xp : ℚ) < (xp_for_level (level xp + 1) : ℚ) := by
    exact_mod_cast lt_xp_for_level_succ xp
  have hden : (0:ℚ) < (xp_for_level (level xp + 1) : ℚ) - (xp_for_level (level xp) : ℚ) := by
    linarith
  unfold level_progress
  constructor
  · exact div_nonneg (by linarith) (le_of_lt hden)
  · rw [div_lt_one hden]
    linarith

/-! ## Hint-level invariant helper lemmas -/

lemma handleSubmitStart_fst_hintLevel (s : QuizState) :
    (handleSubmitStart s).1.hintLevel = s.hintLevel := by
  unfold handleSubmitStart
  cases hq : currentQuestion s with
  | none => rfl
  | some q =>
      cases hs : s.submitting with
      | true => simp [hs]
      | false =>
          cases ha : answerValue s q with
          | none => simp [hs, ha]
          | some a => simp [hs, ha]

lemma quizStep_hintLevel_le (s : QuizState) (a : QuizAction)
    (h : s.hintLevel ≤ 3) : (quizStep s a).hintLevel ≤ 3 := by
  cases a with
  | selectOption o =>
      simp only [quizStep]
      split <;> exact h
  | typeShortAnswer t =>
      simp only [quizStep]
      split <;> exact h
  | requestHint text =>
      simp only [quizStep, requestHint]
      split
      · exact h
      · simp only [QuizState.hintLevel]
        omega
  | submit =>
      simp only [quizStep]
      rw [handleSubmitStart_fst_hintLevel]
      exact h
  | answerResponse r =>
      simp only [quizStep, applyAnswerResult]
      exact h
  | next =>
      simp only [quizStep, handleNext]
      split
      · exact h
      · exact Nat.zero_le 3

lemma foldl_quizStep_hintLevel_le :
    ∀ (actions : List QuizAction) (s : QuizState), s.hintLevel ≤ 3 →
      (actions.foldl quizStep s).hintLevel ≤ 3 := by
  intro actions
  induction actions with
  | nil => intro s h; exact h
  | cons a actions ih =>
      intro s h
      exact ih (quizStep s a) (quizStep_hintLevel_le s a h)

end LearnLens

namespace LearnLens

/-- C1: SM-2 scheduling is deterministic and exact. From ease 2.5, repetition 0,
interval 0, a quality-5 grade yields repetition 1 and interval 1 day (with ease
2.6); a second quality-5 grade yields repetition 2 and interval 6 days (ease
2.7); a third quality-5 grade yields interval `round(6 × new_ease)`; after every
grade the ease factor becomes
`max(1.3, ease + (0.1 − (5−quality)×(0.08 + (5−quality)×0.02)))`; and any grade
with quality < 3 resets repetition to 0 and interval to 1 day. -/
theorem sm2_deterministic_exact :
    grade freshCard 5 = { repetition := 1, interval := 1, ease := 13/5 } ∧
    grade (grade freshCard 5) 5 = { repetition := 2, interval := 6, ease := 27/10 } ∧
    (grade (grade (grade freshCard 5) 5) 5).interval
      = round ((6:ℚ) * (grade (grade (grade freshCard 5) 5) 5).ease) ∧
    (∀ (s : ScheduleState) (q : Nat),
      (grade s q).ease
        = max (13/10) (s.ease + (1/10 - ((5:ℚ) - q) * (8/100 + ((5:ℚ) - q) * (2/100))))) ∧
    (∀ (s : ScheduleState) (q : Nat), q < 3 →
      (grade s q).repetition = 0 ∧ (grade s q).interval = 1) := by
  refine ⟨?_, ?_, ?_, ?_, ?_⟩
  · simp only [grade, updateEase, freshCard]
    norm_num
  · simp only [grade, updateEase, freshCard]
    norm_num
  · simp only [grade, updateEase, freshCard]
    norm_num [round_eq]
  · intro s q
    unfold grade updateEase
    split <;> rfl
  · intro s q hq
    unfold grade
    rw [if_pos hq]
    exact ⟨rfl, rfl⟩

/-- C1 witness: the quality-below-3 reset, at the fresh card and quality 0. -/
theorem sm2_deterministic_exact_witness :
    (grade freshCard 0).repetition = 0 ∧ (grade freshCard 0).interval = 1 :=
  sm2_deterministic_exact.2.2.2.2 freshCard 0 (by decide)

/-- C2: for every sequence of answer events, the mastery score of a
(user, topic) pair stays within [0, 100] after every update (every prefix of
an event log is itself an event log); the dashboard draws each topic's mastery
bar at width `mastery%` and plots mastery on a radar axis with domain fixed to
[0, 100] (each radar datum pairing the mastery with a `fullMark` of 100). -/
theorem mastery_bounds_dashboard :
    (∀ (events : List MasteryEvent) (m : ℚ), masteryAfter events = some m →
      0 ≤ m ∧ m ≤ 100 ∧ masteryBarWidth m = m) ∧
    radarDomain = (0, 100) ∧
    (∀ mq : ℚ, radarDatum mq = (mq, 100)) := by
  refine ⟨?_, rfl, fun _ => rfl⟩
  intro events m hm
  have hb := masteryAfter_foldl_bounds events none (by intro x hx; cases hx) m hm
  exact ⟨hb.1, hb.2, rfl⟩

/-- C2 witness: one correct no-hint event yields mastery 100, within bounds. -/
theorem mastery_bounds_dashboard_witness :
    0 ≤ (100:ℚ) ∧ (100:ℚ) ≤ 100 ∧ masteryBarWidth 100 = 100 :=
  mastery_bounds_dashboard.1 [(true, 0)] 100
    (by simp only [masteryAfter, List.foldl, masteryUpdate, masteryTarget,
          if_true, Nat.cast_zero]; norm_num)

/-- C3: the XP delta of a graded event is `max(0, 10 − 2×hints_used)` when
correct and 0 when incorrect, so total XP is non-decreasing over every event
sequence; the client's per-question notice ("XP reduced by hintLevel×2")
matches this discount, and the XP popup fires only for strictly positive
`xp_earned`. -/
theorem xp_rule_and_client :
    (∀ h : Nat, award_xp true h = max 0 (10 - 2 * (h : ℤ))) ∧
    (∀ h : Nat, award_xp false h = 0) ∧
    (∀ (start : ℤ) (es₁ es₂ : List MasteryEvent),
      totalXP start es₁ ≤ totalXP start (es₁ ++ es₂)) ∧
    (∀ h : Nat, award_xp true h = max 0 (10 - (xpNoticeReduction h : ℤ))) ∧
    (∀ x : ℤ, showXpPopup x = true ↔ 0 < x) := by
  refine ⟨fun h => rfl, fun h => rfl, ?_, ?_, ?_⟩
  · intro start es₁ es₂
    rw [totalXP_append]
    exact le_totalXP es₂ (totalXP start es₁)
  · intro h
    unfold award_xp xpNoticeReduction
    rw [if_pos rfl]
    congr 1
    push_cast
    ring
  · intro x
    unfold showXpPopup
    exact decide_eq_true_iff

end LearnLens

namespace LearnLens

/-- C4: over every sequence of user interactions on the quiz page, the hint
level stays in [0, 3]; a hint request is issued only for levels 1 through 3
(`requestHint` returns without any effect when the next level would exceed 3,
issuing no request), and the hint button is no longer rendered once level 3 is
reached — so the hints-used count at any submission is always in [0, 3]. -/
theorem hint_level_invariant :
    (∀ (qs : List Question) (actions : List QuizAction),
      0 ≤ (quizRun qs actions).hintLevel ∧ (quizRun qs actions).hintLevel ≤ 3) ∧
    (∀ (s : QuizState) (lvl : Nat), hintRequestIssued s = some lvl →
      1 ≤ lvl ∧ lvl ≤ 3) ∧
    (∀ (s : QuizState) (text : String), s.hintLevel + 1 > 3 →
      requestHint s text = s ∧ hintRequestIssued s = none) ∧
    (∀ s : QuizState, 3 ≤ s.hintLevel → hintButtonRendered s = false) := by
  refine ⟨?_, ?_, ?_, ?_⟩
  · intro qs actions
    refine ⟨Nat.zero_le _, ?_⟩
    exact foldl_quizStep_hintLevel_le actions (initQuizState qs) (Nat.zero_le 3)
  · intro s lvl hlvl
    unfold hintRequestIssued at hlvl
    by_cases hgt : s.hintLevel + 1 > 3
    · rw [if_pos hgt] at hlvl
      cases hlvl
    · rw [if_neg hgt] at hlvl
      obtain rfl : s.hintLevel + 1 = lvl := Option.some.inj hlvl
      omega
  · intro s text hgt
    constructor
    · unfold requestHint
      rw [if_pos hgt]
    · unfold hintRequestIssued
      rw [if_pos hgt]
  · intro s h3
    unfold hintButtonRendered
    have : decide (s.hintLevel < 3) = false := by
      simp only [decide_eq_false_iff_not]
      omega
    rw [this, Bool.and_false]

/-- C4 witness: from level 0 a hint request is issued at level 1, within [1, 3]. -/
theorem hint_level_invariant_witness :
    1 ≤ 1 ∧ 1 ≤ 3 :=
  hint_level_invariant.2.1 (initQuizState []) 1 (by decide)

/-- C5: `due_queue(user, now)` contains exactly the questions whose due
timestamp is at most `now`, is sorted by due timestamp ascending with ties
broken by lowest owning-topic mastery, and the dashboard renders its first
three entries as a prefix — in the order received, preserving that priority
(the rendered head is itself sorted). -/
theorem due_queue_correct :
    (∀ (qs : List QItem) (now : Int) (q : QItem),
      q ∈ due_queue qs now ↔ q ∈ qs ∧ q.due ≤ now) ∧
    (∀ (qs : List QItem) (now : Int), List.Sorted dueOrder (due_queue qs now)) ∧
    (∀ queue : List QItem,
      renderedReviewQueue queue <+: queue ∧ (renderedReviewQueue queue).length ≤ 3) ∧
    (∀ (qs : List QItem) (now : Int),
      List.Sorted dueOrder (renderedReviewQueue (due_queue qs now))) := by
  have hsorted : ∀ (qs : List QItem) (now : Int),
      List.Sorted dueOrder (due_queue qs now) := by
    intro qs now
    exact List.sorted_insertionSort dueOrder _
  refine ⟨?_, hsorted, ?_, ?_⟩
  · intro qs now q
    unfold due_queue
    rw [List.mem_insertionSort, List.mem_filter]
    simp only [decide_eq_true_iff]
  · intro queue
    exact ⟨List.take_prefix 3 queue, List.length_take_le 3 queue⟩
  · intro qs now
    have hpre : renderedReviewQueue (due_queue qs now) <+: due_queue qs now :=
      List.take_prefix 3 _
    exact List.Pairwise.sublist hpre.sublist (hsorted qs now)

end LearnLens

namespace LearnLens

/-- C6: `level(total_xp) = floor(sqrt(total_xp / 100)) + 1` is a pure, monotonic
function of total XP — for every `total_xp ≥ 1`, `level(total_xp) ≥
level(total_xp − 1)` — and the derived level-progress fraction always lies in
[0, 1), so the dashboard's level bar, drawn at width `level_progress × 100 %`,
never reaches or exceeds full width. -/
theorem level_monotone_progress_bounded :
    (∀ xp : Nat, 1 ≤ xp → level (xp - 1) ≤ level xp) ∧
    (∀ xp : Nat, level xp = Nat.sqrt (xp / 100) + 1) ∧
    (∀ xp : Nat, 0 ≤ level_progress xp ∧ level_progress xp < 1) ∧
    (∀ xp : Nat, levelBarWidth (level_progress xp) < 100) := by
  refine ⟨?_, fun xp => rfl, level_progress_bounds, ?_⟩
  · intro xp _h
    unfold level
    have h2 : (xp - 1) / 100 ≤ xp / 100 := Nat.div_le_div_right (Nat.sub_le xp 1)
    have h3 := Nat.sqrt_le_sqrt h2
    omega
  · intro xp
    have h := (level_progress_bounds xp).2
    unfold levelBarWidth
    linarith

/-- C6 witness: monotonicity at total XP 250 (level 2): level 249 ≤ level 250. -/
theorem level_monotone_progress_bounded_witness :
    level (250 - 1) ≤ level 250 :=
  level_monotone_progress_bounded.1 250 (by decide)

/-- C7: the dashboard payload's `stats` object consists of exactly the fields
xp, level, level_progress, streak, longest_streak, accuracy, total_questions
and total_correct, and the payload of topic_mastery, recent_quizzes,
review_queue and stats suffices to render the dashboard: the fields the
Dashboard component reads are exactly those plus `stats.xp_in_level`,
`stats.xp_for_next` and the top-level `documents_count`. -/
theorem dashboard_payload_fields :
    (∀ f : String, f ∈ dashboardStatsFieldsRead ↔
      (f ∈ specStatsFields ∨ f = "xp_in_level" ∨ f = "xp_for_next")) ∧
    (∀ f : String, f ∈ dashboardTopFieldsRead ↔
      (f ∈ specDashboardFields ∨ f = "documents_count")) := by
  constructor
  · intro f
    simp only [dashboardStatsFieldsRead, specStatsFields, List.mem_cons,
      List.not_mem_nil, or_false]
    tauto
  · intro f
    simp only [dashboardTopFieldsRead, specDashboardFields, List.mem_cons,
      List.not_mem_nil, or_false]
    tauto

/-- C8: `stats(user)` returns the lightweight subset {xp, streak, level}, and
those three fields are exactly what the polling navbar reads and displays,
with defaults xp 0, streak 0, level 1 before the first successful fetch, and
the previous values retained when a fetch fails. -/
theorem stats_payload_navbar :
    (∀ f : String, f ∈ navbarFieldsRead ↔ f ∈ specLightStatsFields) ∧
    initialNavStats = { xp := 0, streak := 0, level := 1 } ∧
    (∀ st : NavStats, navUpdate st none = st) ∧
    (∀ (st fetched : NavStats), navUpdate st (some fetched) = fetched) :=
  ⟨fun _ => Iff.rfl, rfl, fun _ => rfl, fun _ _ => rfl⟩

end LearnLens

namespace LearnLens

/-- C9: advancing from a non-final question changes only the current-question
index and the per-question input state — it clears the selected option, the
short-answer text, the feedback and the revealed hints and resets the hint
level to 0 — while the loaded quiz, the accumulated results, the completed
flag and the submitting flag stay unchanged; in particular the XP-reduction
notice for the next question reads a hint level of 0. -/
theorem handleNext_frame (s : QuizState)
    (h : s.currentIndex + 1 < s.questions.length) :
    (handleNext s).questions = s.questions ∧
    (handleNext s).results = s.results ∧
    (handleNext s).completed = s.completed ∧
    (handleNext s).submitting = s.submitting ∧
    (handleNext s).currentIndex = s.currentIndex + 1 ∧
    (handleNext s).selectedOption = none ∧
    (handleNext s).shortAnswer = "" ∧
    (handleNext s).feedback = none ∧
    (handleNext s).hints = [] ∧
    (handleNext s).hintLevel = 0 ∧
    xpNoticeReduction (handleNext s).hintLevel = 0 := by
  unfold handleNext
  rw [if_neg (by omega)]
  exact ⟨rfl, rfl, rfl, rfl, rfl, rfl, rfl, rfl, rfl, rfl, rfl⟩

/-- C9 witness: the frame condition at a two-question quiz on its first
question. -/
theorem handleNext_frame_witness :
    (handleNext (initQuizState
        [{ id := 1, question_type := QType.mcq, question_text := "a", options := [] },
         { id := 2, question_type := QType.short_answer, question_text := "b", options := [] }])).results
      = (initQuizState
        [{ id := 1, question_type := QType.mcq, question_text := "a", options := [] },
         { id := 2, question_type := QType.short_answer, question_text := "b", options := [] }]).results :=
  (handleNext_frame (initQuizState
        [{ id := 1, question_type := QType.mcq, question_text := "a", options := [] },
         { id := 2, question_type := QType.short_answer, question_text := "b", options := [] }])
    (by decide)).2.1

/-- C10: submitting is a no-op when no answer has been provided (no selected
option for an MCQ, empty text for a short answer), when there is no current
question, or while a previous submission is in flight: `handleSubmit` returns
before issuing the answer request and the state is unchanged — no feedback, no
results entry, no XP change; and the submit button is disabled in exactly those
conditions (given that the untouched input of the other question type is in
its cleared state). -/
theorem handleSubmit_guard :
    (∀ s : QuizState, currentQuestion s = none → handleSubmitStart s = (s, none)) ∧
    (∀ s : QuizState, s.submitting = true → handleSubmitStart s = (s, none)) ∧
    (∀ (s : QuizState) (q : Question), currentQuestion s = some q →
      answerValue s q = none → handleSubmitStart s = (s, none)) ∧
    (∀ (s : QuizState) (q : Question), currentQuestion s = some q →
      (q.question_type = QType.mcq → s.shortAnswer = "") →
      (q.question_type = QType.short_answer → s.selectedOption = none) →
      (submitButtonDisabled s = true ↔
        (s.submitting = true ∨ answerValue s q = none))) := by
  refine ⟨?_, ?_, ?_, ?_⟩
  · intro s hq
    unfold handleSubmitStart
    rw [hq]
  · intro s hs
    unfold handleSubmitStart
    cases hq : currentQuestion s with
    | none => rfl
    | some q => simp [hs]
  · intro s q hq ha
    unfold handleSubmitStart
    rw [hq]
    by_cases hs : s.submitting = true
    · simp [hs]
    · simp [hs, ha]
  · intro s q hq hmcq hshort
    unfold submitButtonDisabled answerValue
    cases hty : q.question_type with
    | mcq =>
        have he := hmcq hty
        simp [he, Option.isNone_iff_eq_none]
    | short_answer =>
        have ho := hshort hty
        by_cases he : s.shortAnswer = ""
        · simp [ho, he]
        · simp [ho, he]

end LearnLens

namespace LearnLens

/-- C10 witness: with no current question (empty quiz) the submission is a
no-op — unchanged state, no request issued. -/
theorem handleSubmit_guard_witness :
    handleSubmitStart (initQuizState []) = (initQuizState [], none) :=
  handleSubmit_guard.1 (initQuizState []) rfl

end LearnLens
